import Mathlib

/-
Verification development for the migration framework of this repository.

The router (tg_bot/etc/database/migrations/router.py) is embedded shallowly:
the on-disk migration directory becomes a list of file names, the persisted
ledger (MigrateHistory, models.py) becomes a list of names in id order, the
committed schema becomes a list of executed DDL operations, and migration
scripts become values carrying their `migrate`/`rollback` procedures.  The
Migrator and the structural diff engine (auto.diff_one / diff_many) are not
part of the sources here; they are modelled from the specification, as noted
on each such definition.

Python call semantics matter in one place: `run_one` always invokes a
migration procedure as `proc(migrator, database, fake=fake)`, while the
fallback `VOID = lambda m, d: None` accepts only two positional parameters.
A callable value therefore records whether it accepts the `fake` keyword;
calling one that does not raises a TypeError, exactly as CPython would.
-/

/-- Kinds of schema operations a migration can issue. -/
inductive OpKind
  | createTable
  | dropTable
  | addColumn
  | dropColumn
  | changeType
  | dropNotNull
  | addNotNull
  | changeDefault
  | dropIndex
  | addIndex
  deriving DecidableEq

/-- One schema operation: kind, target table and column, and a uniqueness
flag used by index operations. -/
structure Op where
  kind : OpKind
  table : String
  column : String
  uniq : Bool
  deriving DecidableEq

/-- Canonical column types, standing for the peewee field types that appear
in the repository tests (IntegerField, CharField, TextField, DateField...). -/
inductive ColType
  | intType
  | charType
  | textType
  | dateType
  | datetimeType
  | boolType
  deriving DecidableEq

/-- A column of a schema snapshot: name, semantic type, max length,
nullability, index and unique flags, and the rendered default value. -/
structure Column where
  name : String
  ctype : ColType
  maxLength : Nat
  null : Bool
  index : Bool
  unique : Bool
  dflt : Option String
  deriving DecidableEq

/-- A table snapshot: its name and its ordered columns. -/
structure Table where
  name : String
  columns : List Column
  deriving DecidableEq

/-- Modelled from the spec: the Migrator (migrations/migrator.py is not among
the sources).  It owns the live registry of table snapshots (`orm`) and the
queue of pending DDL operations. -/
structure Migrator where
  orm : List Table
  ops : List Op
  deriving DecidableEq

/-- Modelled from the spec: `Migrator.run` executes every enqueued operation
in order and clears the queue; the first component is the DDL that reached
the database. -/
def Migrator.run (m : Migrator) : List Op × Migrator :=
  (m.ops, { m with ops := [] })

/-- Modelled from the spec: `Migrator.clean` discards the pending queue
without executing it, keeping the registry (used by fake replay). -/
def Migrator.clean (m : Migrator) : Migrator :=
  { m with ops := [] }

/-- Python-level errors surfaced by the router. -/
inductive PyError
  | unexpectedKeywordFake
  | procRaised
  | fileNotFound
  deriving DecidableEq

/-- Result of running a migration procedure body: the mutated migrator
(registry updates and newly enqueued operations), the statements the body
sent straight to the database, and whether the body returned normally. -/
structure CallResult where
  migrator : Migrator
  direct : List Op
  ok : Bool
  deriving DecidableEq

/-- A Python callable loaded from a migration script.  `acceptsFake` records
whether its signature admits the `fake` keyword argument that `run_one`
always passes. -/
structure PyCallable where
  acceptsFake : Bool
  run : Migrator → Bool → CallResult

/-- Invocation `proc(migrator, database, fake=fake)` as done by
router.py lines 150, 162 and 167: a TypeError is raised when the callable
does not accept the `fake` keyword, and `procRaised` stands for any
exception the body itself raises. -/
def callProc (p : PyCallable) (m : Migrator) (fake : Bool) : Except PyError CallResult :=
  if p.acceptsFake then
    let r := p.run m fake
    if r.ok then Except.ok r else Except.error PyError.procRaised
  else Except.error PyError.unexpectedKeywordFake

/-- Embedding of `VOID = lambda m, d: None` (router.py line 25): a no-op body
whose signature takes only the two positional parameters, hence does not
accept the `fake` keyword. -/
def VOID : PyCallable :=
  { acceptsFake := false,
    run := fun m _ => { migrator := m, direct := [], ok := true } }

/-- A migration script as stored on disk or in a module: each direction may
be absent from the loaded scope. -/
structure Script where
  migrateProc : Option PyCallable
  rollbackProc : Option PyCallable

/-- Embedding of `scope.get('migrate', VOID), scope.get('rollback', VOID)`
(router.py line 260; likewise `getattr(mod, ..., VOID)` at lines 281-284):
a missing procedure is replaced by `VOID`. -/
def readProcs (s : Script) : PyCallable × PyCallable :=
  (s.migrateProc.getD VOID, s.rollbackProc.getD VOID)

/-- Committed database state: the MigrateHistory ledger rows in id order and
the DDL that has been executed and committed. -/
structure DBState where
  ledger : List String
  schema : List Op
  deriving DecidableEq

/-- Log records emitted by the router, with the operation word of the
failure log (`'%s failed: %s'`, router.py line 176) kept verbatim. -/
inductive LogEntry
  | startingMigrations
  | nothingToMigrate
  | migrateStart (name : String)
  | rollingBack (name : String)
  | doneLog (name : String)
  | failed (operation : String) (name : String)
  | downgraded (name : String)
  | cantMergeLog
  | mergedInto (name : String)
  deriving DecidableEq

/-- Full router state: directory listing of the migration dir, resolution of
script names to their loaded scopes, committed database state, and the log. -/
structure RouterState where
  files : List String
  scripts : String → Script
  db : DBState
  log : List LogEntry

/-- Appends one log record. -/
def RouterState.logEntry (st : RouterState) (e : LogEntry) : RouterState :=
  { st with log := st.log ++ [e] }

/-- Embedding of the except clause of `run_one` (router.py lines 173-176):
`operation = 'Migration' if not downgrade else 'Rollback'` followed by
`logger.exception('%s failed: %s', operation, name)`. -/
def RouterState.logFail (st : RouterState) (downgrade : Bool) (name : String) : RouterState :=
  st.logEntry (LogEntry.failed (if downgrade then "Rollback" else "Migration") name)

/-- Lexicographic comparison of character lists by code point, the order
Python's `sorted` uses on strings. -/
def lexLe : List Char → List Char → Bool
  | [], _ => true
  | _ :: _, [] => false
  | a :: as, b :: bs =>
    if a.toNat < b.toNat then true
    else if b.toNat < a.toNat then false
    else lexLe as bs

/-- String comparison used when sorting migration names. -/
def strLe (a b : String) : Bool :=
  lexLe a.toList b.toList

/-- Stable insertion into a sorted list. -/
def insertSorted (a : String) : List String → List String
  | [] => [a]
  | b :: t => if strLe a b then a :: b :: t else b :: insertSorted a t

/-- Embedding of Python's `sorted` on a list of strings. -/
def sortNames (l : List String) : List String :=
  l.foldr insertSorted []

/-- Whitespace characters stripped by Python's `str.strip()`. -/
def pySpace (c : Char) : Bool :=
  (c == ' ') || (c == '\t') || (c == '\n') || (c == '\r') || (c == '\x0b') || (c == '\x0c')

/-- Embedding of `name.strip()` (router.py line 199). -/
def pyStrip (s : String) : String :=
  String.mk (((s.toList.dropWhile pySpace).reverse.dropWhile pySpace).reverse)

/-- Tail part of the file mask after the three digits and the underscore:
`[^\.]+\.py$`, i.e. a non-empty dot-free body followed by ".py" at the end. -/
def maskBody (rest : List Char) : Bool :=
  decide (4 ≤ rest.length) &&
  (rest.take (rest.length - 3)).all (fun c => !(c == '.')) &&
  (rest.drop (rest.length - 3) == ['.', 'p', 'y'])

/-- Head part of the file mask `[\d]{3}_` anchored at the start. -/
def maskChars : List Char → Bool
  | c1 :: c2 :: c3 :: c4 :: rest =>
    c1.isDigit && c2.isDigit && c3.isDigit && (c4 == '_') && maskBody rest
  | _ => false

/-- Embedding of `Router.filemask = re.compile(r"[\d]{3}_[^\.]+\.py$")`
matched with `re.match` (router.py line 213). -/
def filemask (f : String) : Bool :=
  maskChars f.toList

/-- Embedding of `f[:-3]`: removes the trailing ".py". -/
def dropPy (f : String) : String :=
  String.mk (f.toList.take (f.toList.length - 3))

/-- Embedding of `BaseRouter.done` (router.py lines 57-60): ledger names in
id order. -/
def RouterState.done (st : RouterState) : List String :=
  st.db.ledger

/-- Embedding of `Router.todo` (router.py lines 219-225): the sorted stems
of the directory entries matching the file mask. -/
def RouterState.todo (st : RouterState) : List String :=
  sortNames (st.files.filterMap (fun f => if filemask f then some (dropPy f) else none))

/-- Embedding of `BaseRouter.diff` (router.py lines 62-66): names in `todo`
that are not in `done`, in `todo` order. -/
def RouterState.diff (st : RouterState) : List String :=
  st.todo.filter (fun n => !(st.done.contains n))

/-- Embedding of `Router.read` (router.py lines 240-260): opening
`migrate_dir/<name>.py` fails when the file is absent; otherwise the loaded
scope provides the two procedures with `VOID` as fallback. -/
def RouterState.read (st : RouterState) (name : String) : Except PyError (PyCallable × PyCallable) :=
  if (name ++ ".py") ∈ st.files then Except.ok (readProcs (st.scripts name))
  else Except.error PyError.fileNotFound

/-- Embedding of `BaseRouter.run_one` (router.py lines 141-177).  In fake
mode the `execute_sql` mock discards statements the body sends directly to
the database, the ledger row is written only under `force`, and the pending
queue is cleaned without executing.  In real mode the body and the queued
DDL run inside one transaction together with the ledger write; on any
exception the transaction is rolled back — the committed state is unchanged
— the failure is logged, and the error propagates. -/
def RouterState.run_one (st : RouterState) (name : String) (m : Migrator)
    (fake downgrade force : Bool) : RouterState × Except PyError Migrator :=
  match st.read name with
  | Except.error e => (st.logFail downgrade name, Except.error e)
  | Except.ok procs =>
    if fake then
      match callProc procs.1 m true with
      | Except.error e => (st.logFail downgrade name, Except.error e)
      | Except.ok r =>
        if force then
          ({ st with db := { st.db with ledger := st.db.ledger ++ [name] },
                     log := st.log ++ [LogEntry.doneLog name] }, Except.ok r.migrator.clean)
        else (st, Except.ok r.migrator.clean)
    else
      if downgrade then
        match callProc procs.2 m false with
        | Except.error e => ((st.logEntry (LogEntry.rollingBack name)).logFail true name, Except.error e)
        | Except.ok r =>
          let exec := r.migrator.run
          (({ st with
               db := { ledger := st.db.ledger.filter (fun x => !(x == name)),
                       schema := st.db.schema ++ r.direct ++ exec.1 },
               log := st.log ++ [LogEntry.rollingBack name, LogEntry.doneLog name] }),
           Except.ok exec.2)
      else
        match callProc procs.1 m false with
        | Except.error e => ((st.logEntry (LogEntry.migrateStart name)).logFail false name, Except.error e)
        | Except.ok r =>
          let exec := r.migrator.run
          (({ st with
               db := { ledger := st.db.ledger ++ [name],
                       schema := st.db.schema ++ r.direct ++ exec.1 },
               log := st.log ++ [LogEntry.migrateStart name, LogEntry.doneLog name] }),
           Except.ok exec.2)

/-- Fake replay of a list of migration names against a migrator, as done by
the loop in `BaseRouter.migrator` (router.py lines 68-74); an exception
aborts the replay. -/
def replayList (st : RouterState) (m : Migrator) : List String → RouterState × Except PyError Migrator
  | [] => (st, Except.ok m)
  | n :: rest =>
    match st.run_one n m true false false with
    | (st', Except.error e) => (st', Except.error e)
    | (st', Except.ok m') => replayList st' m' rest

/-- Embedding of the `BaseRouter.migrator` cached property: a fresh
Migrator with every `done` migration replayed in fake mode. -/
def replayDone (st : RouterState) : RouterState × Except PyError Migrator :=
  replayList st { orm := [], ops := [] } st.done

/-- Embedding of `if name and name == mname` (router.py line 193): Python
truthiness makes an empty target never match. -/
def targetHit : Option String → String → Bool
  | some t, n => (!(t == "")) && (t == n)
  | none, _ => false

/-- Prefix of a list up to and including the first hit of the target. -/
def takeUntilTarget (target : Option String) : List String → List String
  | [] => []
  | n :: rest => if targetHit target n then [n] else n :: takeUntilTarget target rest

/-- The application loop of `BaseRouter.run` (router.py lines 190-194):
each pending name runs with `fake=fake, force=fake`, is appended to the
result, and the loop breaks after the target. -/
def runList (st : RouterState) (m : Migrator) (target : Option String) (fake : Bool)
    (acc : List String) : List String → RouterState × Except PyError (List String)
  | [] => (st, Except.ok acc)
  | n :: rest =>
    match st.run_one n m fake false fake with
    | (st', Except.error e) => (st', Except.error e)
    | (st', Except.ok m') =>
      if targetHit target n then (st', Except.ok (acc ++ [n]))
      else runList st' m' target fake (acc ++ [n]) rest

/-- Embedding of `BaseRouter.run` (router.py lines 179-196). -/
def RouterState.run (st : RouterState) (target : Option String) (fake : Bool) :
    RouterState × Except PyError (List String) :=
  if (st.logEntry LogEntry.startingMigrations).diff.isEmpty then
    ((st.logEntry LogEntry.startingMigrations).logEntry LogEntry.nothingToMigrate, Except.ok [])
  else
    match replayDone (st.logEntry LogEntry.startingMigrations) with
    | (st2, Except.error e) => (st2, Except.error e)
    | (st2, Except.ok m) => runList st2 m target fake [] (st.logEntry LogEntry.startingMigrations).diff

/-- Runtime errors raised by `BaseRouter.rollback`, or a propagated
execution error. -/
inductive RunError
  | runtime (msg : String)
  | py (e : PyError)
  deriving DecidableEq

/-- Embedding of `BaseRouter.rollback` (router.py lines 198-208): the name
is stripped, an empty ledger or a name other than the last applied one is a
fatal error, and otherwise the reverse procedure runs for real
(`run_one(name, migrator, False, True)`). -/
def RouterState.rollback (st : RouterState) (name : String) : RouterState × Except RunError Unit :=
  let name := pyStrip name
  match st.done.getLast? with
  | none => (st, Except.error (RunError.runtime "No migrations are found."))
  | some lastName =>
    if name == lastName then
      match replayDone st with
      | (st', Except.error e) => (st', Except.error (RunError.py e))
      | (st', Except.ok m) =>
        match st'.run_one name m false true false with
        | (st'', Except.error e) => (st'', Except.error (RunError.py e))
        | (st'', Except.ok _) => (st''.logEntry (LogEntry.downgraded name), Except.ok ())
    else (st, Except.error (RunError.runtime "Only last migration can be canceled."))

/-- Embedding of `Router.clear` (router.py lines 262-267 together with
lines 131-133): all ledger rows are deleted and every mask-matching script
file is removed from the migration directory. -/
def RouterState.clear (st : RouterState) : RouterState :=
  { st with db := { st.db with ledger := [] },
            files := st.files.filter (fun f => !(filemask f)) }

/-- Table lookup by column name. -/
def Table.col? (t : Table) (n : String) : Option Column :=
  t.columns.find? (fun c => c.name == n)

/-- Modelled from the spec: the per-table structural diff (auto.diff_one is
not among the sources).  The emission order of the blocks is fixed by the
repository test test_auto.py lines 39-45, which requires the column
additions first and, at the end, drop-not-null before drop-index with
add-index last. -/
def diff_one (newT oldT : Table) : List Op :=
  let adds := newT.columns.filter (fun c => (oldT.col? c.name).isNone)
  let drops := oldT.columns.filter (fun c => (newT.col? c.name).isNone)
  let pairs := newT.columns.filterMap (fun c => (oldT.col? c.name).map (fun o => (o, c)))
  let typeChs := pairs.filter (fun p => (!(p.1.ctype == p.2.ctype)) || (!(p.1.maxLength == p.2.maxLength)))
  let dropNN := pairs.filter (fun p => (!p.1.null) && p.2.null)
  let addNN := pairs.filter (fun p => p.1.null && (!p.2.null))
  let defCh := pairs.filter (fun p => !(p.1.dflt == p.2.dflt))
  let idxCh := pairs.filter (fun p => (!(p.1.index == p.2.index)) || (!(p.1.unique == p.2.unique)))
  let dropIdx := idxCh.filter (fun p => p.1.index || p.1.unique)
  let addIdx := idxCh.filter (fun p => p.2.index || p.2.unique)
  adds.map (fun c => Op.mk OpKind.addColumn newT.name c.name false)
  ++ drops.map (fun c => Op.mk OpKind.dropColumn newT.name c.name false)
  ++ typeChs.map (fun p => Op.mk OpKind.changeType newT.name p.2.name false)
  ++ dropNN.map (fun p => Op.mk OpKind.dropNotNull newT.name p.2.name false)
  ++ addNN.map (fun p => Op.mk OpKind.addNotNull newT.name p.2.name false)
  ++ defCh.map (fun p => Op.mk OpKind.changeDefault newT.name p.2.name false)
  ++ dropIdx.map (fun p => Op.mk OpKind.dropIndex newT.name p.2.name false)
  ++ addIdx.map (fun p => Op.mk OpKind.addIndex newT.name p.2.name p.2.unique)

/-- Membership of a table name in a snapshot set. -/
def hasTable (ts : List Table) (n : String) : Bool :=
  ts.any (fun t => t.name == n)

/-- Snapshot lookup by table name. -/
def tbl? (ts : List Table) (n : String) : Option Table :=
  ts.find? (fun t => t.name == n)

/-- Modelled from the spec: the bulk diff (auto.diff_many is not among the
sources) — table-level create and drop operations, then the per-table diffs
for tables present on both sides. -/
def diff_many (news olds : List Table) : List Op :=
  (news.filter (fun t => !(hasTable olds t.name))).map
      (fun t => Op.mk OpKind.createTable t.name "" false)
  ++ (olds.filter (fun t => !(hasTable news t.name))).map
      (fun t => Op.mk OpKind.dropTable t.name "" false)
  ++ ((news.filterMap (fun t => (tbl? olds t.name).map (fun o => (t, o)))).map
      (fun p => diff_one p.1 p.2)).flatten

/-- Embedding of `compile_migrations` (router.py lines 306-317), with the
rendered migration text modelled as the operation list it encodes; an empty
diff yields the falsy result. -/
def compile_migrations (migrator : Migrator) (models : List Table) (reverse : Bool) :
    Option (List Op) :=
  let source := migrator.orm
  let pair := if reverse then (models, source) else (source, models)
  let migrations := diff_many pair.2 pair.1
  if migrations.isEmpty then none else some migrations

/-- A contract-abiding migration procedure that enqueues the given
operations on the migrator it receives. -/
def opsProc (ops : List Op) : PyCallable :=
  { acceptsFake := true,
    run := fun m _ => { migrator := { m with ops := m.ops ++ ops }, direct := [], ok := true } }

/-- The script written from the migration template: both directions are
present and accept the `fake` keyword. -/
def templateScript (mig rb : List Op) : Script :=
  { migrateProc := some (opsProc mig), rollbackProc := some (opsProc rb) }

/-- State of the router after `Router.compile` has written the merged
script: the new file is in the directory and resolves to the template
script. -/
def mergedState (st2 : RouterState) (newName : String) (migCode rbCode : List Op) : RouterState :=
  { st2 with files := st2.files ++ [newName ++ ".py"],
             scripts := fun n => if n == newName then templateScript migCode rbCode else st2.scripts n }

/-- Embedding of `BaseRouter.merge` combined with `Router.compile`
(router.py lines 114-129 and 227-238): compile the whole current registry
into one migration, bail out with an error log when that diff is empty,
otherwise clear ledger and script files, write the merged script under
number 001, and fake-run it with `force=True` so that exactly its ledger
row is inserted. -/
def RouterState.merge (st : RouterState) (name : String) : RouterState × Except PyError Bool :=
  match replayDone st with
  | (st1, Except.error e) => (st1, Except.error e)
  | (st1, Except.ok selfMig) =>
    match compile_migrations { orm := [], ops := [] } selfMig.orm false with
    | none => (st1.logEntry LogEntry.cantMergeLog, Except.ok false)
    | some migCode =>
      match (mergedState st1.clear ("001_" ++ name) migCode
          ((compile_migrations selfMig [] false).getD [])).run_one ("001_" ++ name)
          { orm := [], ops := [] } true false true with
      | (st4, Except.error e) => (st4, Except.error e)
      | (st4, Except.ok _) => (st4.logEntry (LogEntry.mergedInto ("001_" ++ name)), Except.ok true)

deriving instance DecidableEq for Except

/-- A migration procedure body that succeeds and changes nothing. -/
def okProc : PyCallable :=
  { acceptsFake := true, run := fun m _ => { migrator := m, direct := [], ok := true } }

/-- A contract-abiding script with both directions present. -/
def okScript : Script := { migrateProc := some okProc, rollbackProc := some okProc }

/-- Concrete router state: two scripts on disk, the first applied. -/
def stw : RouterState :=
  { files := ["001_a.py", "002_b.py"], scripts := fun _ => okScript,
    db := { ledger := ["001_a"], schema := [] }, log := [] }

/-- A procedure that accepts the `fake` keyword and never raises. -/
def totalProc (p : PyCallable) : Prop :=
  p.acceptsFake = true ∧ ∀ m fake, (p.run m fake).ok = true

/-- A migration procedure body that raises after sending one statement. -/
def badProc : PyCallable :=
  { acceptsFake := true,
    run := fun m _ => { migrator := m, direct := [Op.mk OpKind.addColumn "t" "c" false], ok := false } }

/-- Concrete router state whose single script fails when executed. -/
def stBad : RouterState :=
  { files := ["001_x.py"], scripts := fun _ => { migrateProc := some badProc, rollbackProc := some badProc },
    db := { ledger := [], schema := [] }, log := [] }

/-- Concrete router state with no migrations anywhere. -/
def stEmpty : RouterState :=
  { files := [], scripts := fun _ => okScript, db := { ledger := [], schema := [] }, log := [] }

/-- A script that defines only a rollback procedure. -/
def noMigScript : Script := { migrateProc := none, rollbackProc := some okProc }

/-- Concrete router state whose single script lacks `migrate`. -/
def stNoMig : RouterState :=
  { files := ["001_r.py"], scripts := fun _ => noMigScript,
    db := { ledger := [], schema := [] }, log := [] }

/-- A migration name whose script file is present and whose two procedures
follow the script contract (accept the `fake` keyword, never raise). -/
def wfName (st : RouterState) (n : String) : Prop :=
  (n ++ ".py") ∈ st.files
  ∧ totalProc (readProcs (st.scripts n)).1
  ∧ totalProc (readProcs (st.scripts n)).2

/-- An empty table snapshot used by the concrete merge scenario. -/
def tblA : Table := { name := "a", columns := [] }

/-- A forward procedure that registers one table and enqueues its create
operation. -/
def createProcA : PyCallable :=
  { acceptsFake := true,
    run := fun m _ =>
      { migrator := { orm := m.orm ++ [tblA], ops := m.ops ++ [Op.mk OpKind.createTable "a" "" false] },
        direct := [], ok := true } }

/-- Concrete router state with one applied migration that created a table,
plus a stray non-migration file. -/
def stMerge : RouterState :=
  { files := ["001_a.py", "notes.txt"],
    scripts := fun _ => { migrateProc := some createProcA, rollbackProc := some okProc },
    db := { ledger := ["001_a"], schema := [] }, log := [] }

/-- Emission phase of an operation kind in the modelled diff order. -/
def phase : OpKind → Nat
  | OpKind.addColumn => 0
  | OpKind.dropColumn => 1
  | OpKind.changeType => 2
  | OpKind.dropNotNull => 3
  | OpKind.addNotNull => 4
  | OpKind.changeDefault => 5
  | OpKind.dropIndex => 6
  | OpKind.addIndex => 7
  | OpKind.createTable => 8
  | OpKind.dropTable => 9

/-- Order relation on operations by emission phase. -/
def opLe (a b : Op) : Prop := phase a.kind ≤ phase b.kind

/-- Emission phase demanded by the specified fixed order (only the six
families the specification lists). -/
def claimPhase : OpKind → Option Nat
  | OpKind.dropIndex => some 0
  | OpKind.dropNotNull => some 1
  | OpKind.changeType => some 2
  | OpKind.addNotNull => some 3
  | OpKind.changeDefault => some 4
  | OpKind.addIndex => some 5
  | _ => none

/-- Checks that a phase sequence never decreases. -/
def phasesAscend : List Nat → Bool
  | [] => true
  | [_] => true
  | a :: b :: t => (decide (a ≤ b)) && phasesAscend (b :: t)

/-- The fixed order stated by the specification: drop-index, drop-not-null,
type changes, add-not-null, default changes, add-index. -/
def claimOrder (l : List Op) : Prop :=
  phasesAscend (l.filterMap (fun op => claimPhase op.kind)) = true

/-- The on-disk `person` snapshot of the repository test scenario
(test_auto.py lines 19-24 and 50-55): an indexed, non-null last_name. -/
def personOld : Table :=
  { name := "person", columns :=
    [ Column.mk "first_name" ColType.charType 255 false false false none,
      Column.mk "last_name" ColType.charType 255 false true false none ] }

/-- The changed `person` model of the repository test scenario
(test_auto.py lines 33-37): first_name becomes an integer, last_name grows,
turns nullable and unique, and a new `tag` column appears. -/
def personNew : Table :=
  { name := "person", columns :=
    [ Column.mk "first_name" ColType.intType 255 false false false none,
      Column.mk "last_name" ColType.charType 1024 true false true none,
      Column.mk "tag" ColType.intType 255 false false false none ] }

/-- Totality of the lexicographic comparison. -/
theorem lexLe_total : ∀ (a b : List Char), lexLe a b = true ∨ lexLe b a = true := by
  intro a
  induction a with
  | nil => intro b; left; cases b <;> rfl
  | cons x xs ih =>
    intro b
    cases b with
    | nil => right; rfl
    | cons y ys =>
      rcases Nat.lt_trichotomy x.toNat y.toNat with h | h | h
      · left; simp [lexLe, h]
      · rcases ih ys with h2 | h2
        · left; simp [lexLe, h, h2]
        · right; simp [lexLe, h.symm, h2]
      · right; simp [lexLe, h]

/-- Transitivity of the lexicographic comparison. -/
theorem lexLe_trans : ∀ (a b c : List Char),
    lexLe a b = true → lexLe b c = true → lexLe a c = true := by
  intro a
  induction a with
  | nil => intro b c _ _; cases c <;> rfl
  | cons x xs ih =>
    intro b c hab hbc
    cases b with
    | nil => simp [lexLe] at hab
    | cons y ys =>
      cases c with
      | nil => simp [lexLe] at hbc
      | cons z zs =>
        rcases Nat.lt_trichotomy x.toNat y.toNat with hxy | hxy | hxy
        · rcases Nat.lt_trichotomy y.toNat z.toNat with hyz | hyz | hyz
          · simp [lexLe, Nat.lt_trans hxy hyz]
          · simp [lexLe, hyz ▸ hxy]
          · simp [lexLe, hyz, Nat.lt_asymm hyz] at hbc
        · rcases Nat.lt_trichotomy y.toNat z.toNat with hyz | hyz | hyz
          · simp [lexLe, hxy ▸ hyz]
          · simp only [lexLe, hxy, hyz] at hab hbc ⊢
            simp only [lt_self_iff_false, if_false] at hab hbc ⊢
            exact ih ys zs hab hbc
          · simp [lexLe, hyz, Nat.lt_asymm hyz] at hbc
        · simp [lexLe, hxy, Nat.lt_asymm hxy] at hab

/-- Totality of the string comparison. -/
theorem strLe_total (a b : String) : strLe a b = true ∨ strLe b a = true :=
  lexLe_total a.toList b.toList

/-- Transitivity of the string comparison. -/
theorem strLe_trans (a b c : String) :
    strLe a b = true → strLe b c = true → strLe a c = true :=
  lexLe_trans a.toList b.toList c.toList

/-- Membership in an insertion. -/
theorem mem_insertSorted {x a : String} : ∀ {l : List String},
    x ∈ insertSorted a l ↔ x = a ∨ x ∈ l := by
  intro l
  induction l with
  | nil => simp [insertSorted]
  | cons b t ih =>
    by_cases h : strLe a b = true
    · simp only [insertSorted, if_pos h, List.mem_cons]
    · simp only [insertSorted, if_neg h, List.mem_cons, ih]
      tauto

/-- Insertion preserves sortedness. -/
theorem sorted_insertSorted (a : String) : ∀ {l : List String},
    l.Pairwise (fun p q => strLe p q = true) →
    (insertSorted a l).Pairwise (fun p q => strLe p q = true) := by
  intro l
  induction l with
  | nil => intro _; simp [insertSorted]
  | cons b t ih =>
    intro h
    rcases List.pairwise_cons.1 h with ⟨hb, ht⟩
    by_cases hab : strLe a b = true
    · simp only [insertSorted, if_pos hab]
      refine List.Pairwise.cons ?_ h
      intro q hq
      rcases List.mem_cons.1 hq with rfl | hq
      · exact hab
      · exact strLe_trans _ _ _ hab (hb q hq)
    · have hba : strLe b a = true := (strLe_total a b).resolve_left hab
      simp only [insertSorted, if_neg hab]
      refine List.Pairwise.cons ?_ (ih ht)
      intro q hq
      rcases mem_insertSorted.1 hq with rfl | hq
      · exact hba
      · exact hb q hq

/-- The sort produces a sorted list. -/
theorem sorted_sortNames (l : List String) :
    (sortNames l).Pairwise (fun p q => strLe p q = true) := by
  induction l with
  | nil => simp [sortNames]
  | cons a t ih => exact sorted_insertSorted a ih

/-- The sort preserves membership. -/
theorem mem_sortNames {x : String} : ∀ {l : List String}, x ∈ sortNames l ↔ x ∈ l := by
  intro l
  induction l with
  | nil => simp [sortNames]
  | cons a t ih =>
    show x ∈ insertSorted a (sortNames t) ↔ _
    rw [mem_insertSorted, ih, List.mem_cons]

/-- C1: for every router state, `diff` is the sublist of `todo` consisting
exactly of the names not present in `done` (so it preserves `todo` order and
never contains a `done` name), and `todo` is the lexicographically sorted
list of the stems of the directory entries matching the numeric-prefix file
mask. -/
theorem diff_is_pending_todo (st : RouterState) :
    st.diff.Sublist st.todo
  ∧ (∀ n, n ∈ st.diff ↔ n ∈ st.todo ∧ n ∉ st.done)
  ∧ st.todo.Pairwise (fun p q => strLe p q = true)
  ∧ (∀ n, n ∈ st.todo ↔ ∃ f, f ∈ st.files ∧ filemask f = true ∧ n = dropPy f) := by
  refine ⟨List.filter_sublist _, ?_, sorted_sortNames _, ?_⟩
  · intro n
    simp [RouterState.diff, List.mem_filter]
  · intro n
    rw [RouterState.todo, mem_sortNames, List.mem_filterMap]
    constructor
    · rintro ⟨f, hf, hsome⟩
      by_cases hm : filemask f = true
      · rw [if_pos hm] at hsome
        exact ⟨f, hf, hm, (Option.some.inj hsome).symm⟩
      · rw [if_neg hm] at hsome
        cases hsome
    · rintro ⟨f, hf, hm, rfl⟩
      exact ⟨f, hf, by rw [if_pos hm]⟩

/-- Witness for C1 at a concrete state. -/
theorem diff_is_pending_todo_witness :
    stw.diff = ["002_b"]
  ∧ ("002_b" ∈ stw.diff ↔ "002_b" ∈ stw.todo ∧ "002_b" ∉ stw.done)
  ∧ ("001_a" ∈ stw.todo ↔ ∃ f, f ∈ stw.files ∧ filemask f = true ∧ "001_a" = dropPy f) :=
  ⟨by decide, (diff_is_pending_todo stw).2.1 "002_b", (diff_is_pending_todo stw).2.2.2 "001_a"⟩

/-- Calling a total procedure yields its body result. -/
theorem callProc_ok_of_total (p : PyCallable) (m : Migrator) (fake : Bool)
    (h : totalProc p) : callProc p m fake = Except.ok (p.run m fake) := by
  unfold callProc
  rw [h.1]
  simp [h.2 m fake]

/-- Reading a present script yields its loaded procedures. -/
theorem read_ok (st : RouterState) (name : String) (hf : (name ++ ".py") ∈ st.files) :
    st.read name = Except.ok (readProcs (st.scripts name)) := by
  unfold RouterState.read
  rw [if_pos hf]

/-- Fake mode without force: the router state is untouched and the pending
queue is cleaned. -/
theorem run_one_fake_ok_noforce (st : RouterState) (name : String) (m : Migrator) (r : CallResult)
    (hf : (name ++ ".py") ∈ st.files)
    (hc : callProc (readProcs (st.scripts name)).1 m true = Except.ok r) :
    st.run_one name m true false false = (st, Except.ok r.migrator.clean) := by
  unfold RouterState.run_one
  rw [read_ok st name hf]
  dsimp only
  rw [hc]
  rfl

/-- Fake mode with force: only the ledger row and its log record are
added. -/
theorem run_one_fake_ok_force (st : RouterState) (name : String) (m : Migrator) (r : CallResult)
    (hf : (name ++ ".py") ∈ st.files)
    (hc : callProc (readProcs (st.scripts name)).1 m true = Except.ok r) :
    st.run_one name m true false true =
      (RouterState.mk st.files st.scripts
        (DBState.mk (st.db.ledger ++ [name]) st.db.schema)
        (st.log ++ [LogEntry.doneLog name]), Except.ok r.migrator.clean) := by
  unfold RouterState.run_one
  rw [read_ok st name hf]
  dsimp only
  rw [hc]
  rfl

/-- Real forward mode on success: the body result and the queued DDL commit
together with the ledger row. -/
theorem run_one_real_ok (st : RouterState) (name : String) (m : Migrator) (r : CallResult)
    (hf : (name ++ ".py") ∈ st.files)
    (hc : callProc (readProcs (st.scripts name)).1 m false = Except.ok r) :
    st.run_one name m false false false =
      (RouterState.mk st.files st.scripts
        (DBState.mk (st.db.ledger ++ [name]) (st.db.schema ++ r.direct ++ r.migrator.ops))
        (st.log ++ [LogEntry.migrateStart name, LogEntry.doneLog name]),
       Except.ok (Migrator.mk r.migrator.orm [])) := by
  unfold RouterState.run_one
  rw [read_ok st name hf]
  dsimp only
  rw [hc]
  rfl

/-- Real downgrade mode on success: the reverse DDL commits and the ledger
rows carrying this name are deleted. -/
theorem run_one_down_ok (st : RouterState) (name : String) (m : Migrator) (r : CallResult)
    (hf : (name ++ ".py") ∈ st.files)
    (hc : callProc (readProcs (st.scripts name)).2 m false = Except.ok r) :
    st.run_one name m false true false =
      (RouterState.mk st.files st.scripts
        (DBState.mk (st.db.ledger.filter (fun x => !(x == name))) (st.db.schema ++ r.direct ++ r.migrator.ops))
        (st.log ++ [LogEntry.rollingBack name, LogEntry.doneLog name]),
       Except.ok (Migrator.mk r.migrator.orm [])) := by
  unfold RouterState.run_one
  rw [read_ok st name hf]
  dsimp only
  rw [hc]
  rfl

/-- Real mode with a read failure: only the failure log record is added. -/
theorem run_one_err_read (st : RouterState) (name : String) (m : Migrator)
    (fake downgrade force : Bool) (e : PyError) (hr : st.read name = Except.error e) :
    st.run_one name m fake downgrade force = (st.logFail downgrade name, Except.error e) := by
  unfold RouterState.run_one
  rw [hr]

/-- Fake mode with a failing body: only the failure log record is added. -/
theorem run_one_fake_err_proc (st : RouterState) (name : String) (m : Migrator)
    (downgrade force : Bool) (e : PyError) (procs : PyCallable × PyCallable)
    (hr : st.read name = Except.ok procs)
    (hc : callProc procs.1 m true = Except.error e) :
    st.run_one name m true downgrade force = (st.logFail downgrade name, Except.error e) := by
  unfold RouterState.run_one
  rw [hr]
  dsimp only
  rw [hc]
  rfl

/-- Real forward mode with a failing body: the transaction is rolled back,
so only the two log records are added. -/
theorem run_one_real_err_proc (st : RouterState) (name : String) (m : Migrator)
    (force : Bool) (e : PyError) (procs : PyCallable × PyCallable)
    (hr : st.read name = Except.ok procs)
    (hc : callProc procs.1 m false = Except.error e) :
    st.run_one name m false false force =
      ((st.logEntry (LogEntry.migrateStart name)).logFail false name, Except.error e) := by
  unfold RouterState.run_one
  rw [hr]
  dsimp only
  rw [hc]
  rfl

/-- Real downgrade mode with a failing body: the transaction is rolled back,
so only the two log records are added. -/
theorem run_one_down_err_proc (st : RouterState) (name : String) (m : Migrator)
    (force : Bool) (e : PyError) (procs : PyCallable × PyCallable)
    (hr : st.read name = Except.ok procs)
    (hc : callProc procs.2 m false = Except.error e) :
    st.run_one name m false true force =
      ((st.logEntry (LogEntry.rollingBack name)).logFail true name, Except.error e) := by
  unfold RouterState.run_one
  rw [hr]
  dsimp only
  rw [hc]
  rfl

/-- Real forward mode on success, any force flag. -/
theorem run_one_real_ok_any (st : RouterState) (name : String) (m : Migrator) (force : Bool)
    (r : CallResult) (procs : PyCallable × PyCallable)
    (hr : st.read name = Except.ok procs)
    (hc : callProc procs.1 m false = Except.ok r) :
    st.run_one name m false false force =
      (RouterState.mk st.files st.scripts
        (DBState.mk (st.db.ledger ++ [name]) (st.db.schema ++ r.direct ++ r.migrator.ops))
        (st.log ++ [LogEntry.migrateStart name, LogEntry.doneLog name]),
       Except.ok (Migrator.mk r.migrator.orm [])) := by
  unfold RouterState.run_one
  rw [hr]
  dsimp only
  rw [hc]
  rfl

/-- Real downgrade mode on success, any force flag. -/
theorem run_one_down_ok_any (st : RouterState) (name : String) (m : Migrator) (force : Bool)
    (r : CallResult) (procs : PyCallable × PyCallable)
    (hr : st.read name = Except.ok procs)
    (hc : callProc procs.2 m false = Except.ok r) :
    st.run_one name m false true force =
      (RouterState.mk st.files st.scripts
        (DBState.mk (st.db.ledger.filter (fun x => !(x == name))) (st.db.schema ++ r.direct ++ r.migrator.ops))
        (st.log ++ [LogEntry.rollingBack name, LogEntry.doneLog name]),
       Except.ok (Migrator.mk r.migrator.orm [])) := by
  unfold RouterState.run_one
  rw [hr]
  dsimp only
  rw [hc]
  rfl

/-- C3 (amended): whenever a real-mode `run_one` raises, the committed
database state (ledger and schema) is exactly what it was before the call,
the failure is logged with the "Migration"/"Rollback" operation word, and
the exception propagates to the caller. -/
theorem run_one_real_failure_atomic (st : RouterState) (name : String) (m : Migrator)
    (downgrade force : Bool) (e : PyError)
    (h : (st.run_one name m false downgrade force).2 = Except.error e) :
    (st.run_one name m false downgrade force).1.db = st.db
  ∧ (st.run_one name m false downgrade force).1.log.getLast?
      = some (LogEntry.failed (if downgrade then "Rollback" else "Migration") name) := by
  cases hr : st.read name with
  | error e2 =>
    rw [run_one_err_read st name m false downgrade force e2 hr]
    refine ⟨rfl, ?_⟩
    show (st.log ++ [LogEntry.failed (if downgrade then "Rollback" else "Migration") name]).getLast? = _
    exact List.getLast?_concat _
  | ok procs =>
    cases downgrade with
    | true =>
      cases hc : callProc procs.2 m false with
      | error e2 =>
        rw [run_one_down_err_proc st name m force e2 procs hr hc]
        refine ⟨rfl, ?_⟩
        show ((st.log ++ [LogEntry.rollingBack name]) ++ [LogEntry.failed "Rollback" name]).getLast? = _
        exact List.getLast?_concat _
      | ok r =>
        rw [run_one_down_ok_any st name m force r procs hr hc] at h
        cases h
    | false =>
      cases hc : callProc procs.1 m false with
      | error e2 =>
        rw [run_one_real_err_proc st name m force e2 procs hr hc]
        refine ⟨rfl, ?_⟩
        show ((st.log ++ [LogEntry.migrateStart name]) ++ [LogEntry.failed "Migration" name]).getLast? = _
        exact List.getLast?_concat _
      | ok r =>
        rw [run_one_real_ok_any st name m force r procs hr hc] at h
        cases h

/-- C3 counterexample: a failing real-mode migration logs its failure with
the operation word "Migration", not "Migrate" as the specification states. -/
theorem run_one_failure_tag_cex :
    (stBad.run_one "001_x" (Migrator.mk [] []) false false false).2 = Except.error PyError.procRaised
  ∧ (stBad.run_one "001_x" (Migrator.mk [] []) false false false).1.log.getLast?
      = some (LogEntry.failed "Migration" "001_x")
  ∧ ("Migration" : String) ≠ "Migrate" :=
  ⟨by decide, by decide, by decide⟩

/-- Witness for C3 at the concrete failing state. -/
theorem run_one_real_failure_atomic_witness :
    (stBad.run_one "001_x" (Migrator.mk [] []) false false false).1.db = stBad.db
  ∧ (stBad.run_one "001_x" (Migrator.mk [] []) false false false).1.log.getLast?
      = some (LogEntry.failed (if false then "Rollback" else "Migration") "001_x") :=
  run_one_real_failure_atomic stBad "001_x" (Migrator.mk [] []) false false PyError.procRaised (by decide)

/-- C5: a fake-mode `run_one` on a script whose forward procedure succeeds
commits no DDL to the schema, still performs the procedure's registry
mutation on the migrator it returns, and leaves the persisted ledger
exactly as it was unless `force` is set, in which case exactly the one row
for this name is appended — so a ledger row is written if and only if
`force` is true. -/
theorem run_one_fake_frame (st : RouterState) (name : String) (m : Migrator) (force : Bool)
    (r : CallResult)
    (hf : (name ++ ".py") ∈ st.files)
    (hc : callProc (readProcs (st.scripts name)).1 m true = Except.ok r) :
    (st.run_one name m true false force).1.db.schema = st.db.schema
  ∧ (∃ m', (st.run_one name m true false force).2 = Except.ok m' ∧ m'.orm = r.migrator.orm)
  ∧ (st.run_one name m true false force).1.db.ledger
      = st.db.ledger ++ (if force then [name] else [])
  ∧ ((st.run_one name m true false force).1.db.ledger = st.db.ledger ++ [name] ↔ force = true) := by
  cases force with
  | true =>
    rw [run_one_fake_ok_force st name m r hf hc]
    exact ⟨rfl, ⟨r.migrator.clean, rfl, rfl⟩, by simp, by simp⟩
  | false =>
    rw [run_one_fake_ok_noforce st name m r hf hc]
    exact ⟨rfl, ⟨r.migrator.clean, rfl, rfl⟩, by simp, by simp⟩

/-- Witness for C5 at a concrete state, exercising the plain fake replay
(force unset, ledger unchanged) and the forced variant (one row added). -/
theorem run_one_fake_frame_witness :
    ((stw.run_one "002_b" (Migrator.mk [] []) true false false).1.db.schema = stw.db.schema
   ∧ (∃ m', (stw.run_one "002_b" (Migrator.mk [] []) true false false).2 = Except.ok m'
         ∧ m'.orm = (CallResult.mk (Migrator.mk [] []) [] true).migrator.orm)
   ∧ (stw.run_one "002_b" (Migrator.mk [] []) true false false).1.db.ledger
       = stw.db.ledger ++ (if false then ["002_b"] else [])
   ∧ ((stw.run_one "002_b" (Migrator.mk [] []) true false false).1.db.ledger
       = stw.db.ledger ++ ["002_b"] ↔ false = true))
  ∧ (stw.run_one "002_b" (Migrator.mk [] []) true false true).1.db.ledger
      = stw.db.ledger ++ (if true then ["002_b"] else []) :=
  ⟨run_one_fake_frame stw "002_b" (Migrator.mk [] []) false
      (CallResult.mk (Migrator.mk [] []) [] true) (by decide) rfl,
   (run_one_fake_frame stw "002_b" (Migrator.mk [] []) true
      (CallResult.mk (Migrator.mk [] []) [] true) (by decide) rfl).2.2.1⟩

/-- C10: a fake-mode `run_one` that returns normally hands back a migrator
whose pending queue is empty, while the registry produced by the forward
procedure is retained. -/
theorem run_one_fake_cleans_queue (st : RouterState) (name : String) (m : Migrator)
    (downgrade force : Bool) (m' : Migrator)
    (h : (st.run_one name m true downgrade force).2 = Except.ok m') :
    m'.ops = []
  ∧ ∃ r, callProc (readProcs (st.scripts name)).1 m true = Except.ok r ∧ m'.orm = r.migrator.orm := by
  cases hr : st.read name with
  | error e2 =>
    rw [run_one_err_read st name m true downgrade force e2 hr] at h
    cases h
  | ok procs =>
    have hp : procs = readProcs (st.scripts name) := by
      by_cases hf : (name ++ ".py") ∈ st.files
      · rw [read_ok st name hf] at hr
        exact (Except.ok.inj hr).symm
      · unfold RouterState.read at hr
        rw [if_neg hf] at hr
        cases hr
    cases hc : callProc procs.1 m true with
    | error e2 =>
      rw [run_one_fake_err_proc st name m downgrade force e2 procs hr hc] at h
      cases h
    | ok r =>
      have : st.run_one name m true downgrade force
          = (if force then
              (RouterState.mk st.files st.scripts
                (DBState.mk (st.db.ledger ++ [name]) st.db.schema)
                (st.log ++ [LogEntry.doneLog name]), Except.ok r.migrator.clean)
             else (st, Except.ok r.migrator.clean)) := by
        unfold RouterState.run_one
        rw [hr]
        dsimp only
        rw [hc]
        cases force <;> rfl
      rw [this] at h
      have hm : Except.ok (ε := PyError) r.migrator.clean = Except.ok m' := by
        cases force with
        | true => exact h
        | false => exact h
      have hm2 : r.migrator.clean = m' := Except.ok.inj hm
      rw [← hm2]
      exact ⟨rfl, r, by rw [← hp]; exact hc, rfl⟩

/-- Witness for C10 at a concrete state. -/
theorem run_one_fake_cleans_queue_witness :
    (Migrator.mk [] [] : Migrator).ops = []
  ∧ ∃ r, callProc (readProcs (stw.scripts "002_b")).1 (Migrator.mk [] []) true = Except.ok r
      ∧ (Migrator.mk [] [] : Migrator).orm = r.migrator.orm :=
  run_one_fake_cleans_queue stw "002_b" (Migrator.mk [] []) false false (Migrator.mk [] []) (by decide)

/-- C9: rollback on an empty ledger raises the "No migrations are found."
error and returns with the state — ledger, schema, files, scripts and log —
exactly as it was, before any script is read or executed. -/
theorem rollback_empty_ledger (st : RouterState) (name : String) (h : st.done = []) :
    (st.rollback name).2 = Except.error (RunError.runtime "No migrations are found.")
  ∧ (st.rollback name).1 = st := by
  unfold RouterState.rollback
  have hn : st.done.getLast? = none := by rw [h]; rfl
  rw [hn]
  exact ⟨rfl, rfl⟩

/-- Witness for C9 at the empty state. -/
theorem rollback_empty_ledger_witness :
    (stEmpty.rollback "001_a").2 = Except.error (RunError.runtime "No migrations are found.")
  ∧ (stEmpty.rollback "001_a").1 = stEmpty :=
  rollback_empty_ledger stEmpty "001_a" rfl

/-- C8: `read` substitutes `VOID` for the missing `migrate`, but executing
that direction is not a no-op — `run_one` passes `fake=fake` to a two-
parameter lambda, so both fake and real execution raise a TypeError instead
of succeeding (the committed state is nevertheless unchanged). -/
theorem missing_migrate_not_noop :
    (readProcs noMigScript).1 = VOID
  ∧ VOID.acceptsFake = false
  ∧ (stNoMig.run_one "001_r" (Migrator.mk [] []) true false false).2
      = Except.error PyError.unexpectedKeywordFake
  ∧ (stNoMig.run_one "001_r" (Migrator.mk [] []) false false false).2
      = Except.error PyError.unexpectedKeywordFake
  ∧ (stNoMig.run_one "001_r" (Migrator.mk [] []) false false false).1.db = stNoMig.db :=
  ⟨rfl, rfl, by decide, by decide, by decide⟩

/-- C4 counterexample: with `done = ["001_a"]`, the argument " 001_a" is not
equal to the last applied name, yet rollback succeeds and deletes the ledger
row, because the router strips the name before comparing. -/
theorem rollback_whitespace_cex :
    (" 001_a" : String) ≠ "001_a"
  ∧ (stw.rollback " 001_a").2 = Except.ok ()
  ∧ (stw.rollback " 001_a").1.db.ledger = [] :=
  ⟨by decide, by decide, by decide⟩

/-- C4 (amended): with a non-empty ledger, rollback refuses — leaving the
whole state untouched — whenever the stripped name differs from the last
applied migration; when it matches, the reverse procedure runs for real and
the ledger rows carrying that name are deleted. -/
theorem rollback_only_last (st : RouterState) (name : String) (lastName : String)
    (hlast : st.done.getLast? = some lastName) :
    (pyStrip name ≠ lastName →
        (st.rollback name).2 = Except.error (RunError.runtime "Only last migration can be canceled.")
      ∧ (st.rollback name).1 = st)
  ∧ (pyStrip name = lastName →
      ∀ st' m r, replayDone st = (st', Except.ok m) →
        callProc (readProcs (st'.scripts (pyStrip name))).2 m false = Except.ok r →
        (pyStrip name ++ ".py") ∈ st'.files →
          (st.rollback name).2 = Except.ok ()
        ∧ (st.rollback name).1.db.ledger = st'.db.ledger.filter (fun x => !(x == pyStrip name))
        ∧ (st.rollback name).1.db.schema = st'.db.schema ++ r.direct ++ r.migrator.ops) := by
  constructor
  · intro hne
    unfold RouterState.rollback
    rw [hlast]
    dsimp only
    rw [if_neg (by simpa using hne)]
    exact ⟨rfl, rfl⟩
  · intro heq st' m r hrep hc hf
    unfold RouterState.rollback
    rw [hlast]
    dsimp only
    rw [if_pos (by simpa using heq), hrep]
    dsimp only
    rw [run_one_down_ok st' (pyStrip name) m r hf hc]
    exact ⟨rfl, rfl, rfl⟩

/-- Witness for C4 at a concrete state, matching branch. -/
theorem rollback_only_last_witness :
    (stw.rollback "001_a").2 = Except.ok ()
  ∧ (stw.rollback "001_a").1.db.ledger
      = stw.db.ledger.filter (fun x => !(x == pyStrip "001_a"))
  ∧ (stw.rollback "001_a").1.db.schema
      = stw.db.schema ++ (CallResult.mk (Migrator.mk [] []) [] true).direct
          ++ (CallResult.mk (Migrator.mk [] []) [] true).migrator.ops :=
  (rollback_only_last stw "001_a" "001_a" rfl).2 (by decide) stw (Migrator.mk [] [])
    (CallResult.mk (Migrator.mk [] []) [] true) rfl rfl (by decide)

/-- Fake replay of well-formed scripts succeeds and leaves the state as it
was. -/
theorem replayList_ok (l : List String) : ∀ (st : RouterState) (m : Migrator),
    (∀ n ∈ l, wfName st n) → ∃ m', replayList st m l = (st, Except.ok m') := by
  induction l with
  | nil => intro st m _; exact ⟨m, rfl⟩
  | cons n rest ih =>
    intro st m hwf
    have hn := hwf n (List.mem_cons_self n rest)
    have hro := run_one_fake_ok_noforce st n m ((readProcs (st.scripts n)).1.run m true)
      hn.1 (callProc_ok_of_total _ m true hn.2.1)
    rcases ih st ((readProcs (st.scripts n)).1.run m true).migrator.clean
      (fun n' hn' => hwf n' (List.mem_cons_of_mem _ hn')) with ⟨m', hm'⟩
    refine ⟨m', ?_⟩
    have hstep : replayList st m (n :: rest)
        = replayList st ((readProcs (st.scripts n)).1.run m true).migrator.clean rest := by
      conv_lhs => rw [replayList]
      rw [hro]
    rw [hstep, hm']

/-- The application loop over well-formed scripts applies exactly the prefix
up to the target, appending one ledger row per applied migration, and never
touches the directory or the script resolution. -/
theorem runList_spec (target : Option String) (l : List String) :
    ∀ (st : RouterState) (m : Migrator) (acc : List String),
    (∀ n ∈ l, wfName st n) →
      (runList st m target false acc l).2 = Except.ok (acc ++ takeUntilTarget target l)
    ∧ (runList st m target false acc l).1.db.ledger = st.db.ledger ++ takeUntilTarget target l
    ∧ (runList st m target false acc l).1.files = st.files
    ∧ (runList st m target false acc l).1.scripts = st.scripts := by
  induction l with
  | nil =>
    intro st m acc _
    exact ⟨by simp [runList, takeUntilTarget], by simp [runList, takeUntilTarget], rfl, rfl⟩
  | cons n rest ih =>
    intro st m acc hwf
    have hn := hwf n (List.mem_cons_self n rest)
    have hc := callProc_ok_of_total (readProcs (st.scripts n)).1 m false hn.2.1
    have hro := run_one_real_ok st n m ((readProcs (st.scripts n)).1.run m false) hn.1 hc
    by_cases ht : targetHit target n = true
    · have hstep : runList st m target false acc (n :: rest)
          = (RouterState.mk st.files st.scripts
              (DBState.mk (st.db.ledger ++ [n])
                (st.db.schema ++ ((readProcs (st.scripts n)).1.run m false).direct
                  ++ ((readProcs (st.scripts n)).1.run m false).migrator.ops))
              (st.log ++ [LogEntry.migrateStart n, LogEntry.doneLog n]),
             Except.ok (acc ++ [n])) := by
        conv_lhs => rw [runList]
        rw [hro]
        dsimp only
        rw [if_pos ht]
      have htake : takeUntilTarget target (n :: rest) = [n] := by
        conv_lhs => rw [takeUntilTarget]
        rw [if_pos ht]
      rw [hstep, htake]
      exact ⟨rfl, rfl, rfl, rfl⟩
    · have hstep : runList st m target false acc (n :: rest)
          = runList (RouterState.mk st.files st.scripts
              (DBState.mk (st.db.ledger ++ [n])
                (st.db.schema ++ ((readProcs (st.scripts n)).1.run m false).direct
                  ++ ((readProcs (st.scripts n)).1.run m false).migrator.ops))
              (st.log ++ [LogEntry.migrateStart n, LogEntry.doneLog n]))
              (Migrator.mk ((readProcs (st.scripts n)).1.run m false).migrator.orm [])
              target false (acc ++ [n]) rest := by
        conv_lhs => rw [runList]
        rw [hro]
        dsimp only
        rw [if_neg ht]
      have htake : takeUntilTarget target (n :: rest) = n :: takeUntilTarget target rest := by
        conv_lhs => rw [takeUntilTarget]
        rw [if_neg ht]
      rcases ih (RouterState.mk st.files st.scripts
              (DBState.mk (st.db.ledger ++ [n])
                (st.db.schema ++ ((readProcs (st.scripts n)).1.run m false).direct
                  ++ ((readProcs (st.scripts n)).1.run m false).migrator.ops))
              (st.log ++ [LogEntry.migrateStart n, LogEntry.doneLog n]))
          (Migrator.mk ((readProcs (st.scripts n)).1.run m false).migrator.orm [])
          (acc ++ [n]) (fun n' hn' => hwf n' (List.mem_cons_of_mem _ hn')) with ⟨h1, h2, h3, h4⟩
      rw [hstep, htake]
      refine ⟨?_, ?_, h3, h4⟩
      · rw [h1]
        simp
      · rw [h2]
        simp

/-- C2: `run(target?, fake=False)` returns an empty list and leaves the whole
committed database state untouched when there is nothing pending; otherwise
it first fake-replays every `done` migration to rebuild the Migrator, then
applies the pending names in `diff` order for real, stopping after the
target, returning the applied prefix and appending exactly one ledger row
per applied migration. -/
theorem run_replays_then_applies (st : RouterState) (target : Option String) :
    (st.diff = [] →
        (st.run target false).2 = Except.ok []
      ∧ (st.run target false).1.db = st.db)
  ∧ ((∀ n ∈ st.done, wfName st n) → (∀ n ∈ st.diff, wfName st n) →
        (∃ m', replayDone (st.logEntry LogEntry.startingMigrations)
            = (st.logEntry LogEntry.startingMigrations, Except.ok m'))
      ∧ (st.run target false).2 = Except.ok (takeUntilTarget target st.diff)
      ∧ (st.run target false).1.db.ledger = st.db.ledger ++ takeUntilTarget target st.diff) := by
  have hdiff1 : (st.logEntry LogEntry.startingMigrations).diff = st.diff := rfl
  constructor
  · intro h
    unfold RouterState.run
    rw [hdiff1, h]
    exact ⟨rfl, rfl⟩
  · intro hdone hpend
    have hwfdone : ∀ n ∈ (st.logEntry LogEntry.startingMigrations).done,
        wfName (st.logEntry LogEntry.startingMigrations) n := fun n hn => hdone n hn
    rcases replayList_ok st.done (st.logEntry LogEntry.startingMigrations) (Migrator.mk [] [])
        hwfdone with ⟨m', hrep⟩
    have hrepD : replayDone (st.logEntry LogEntry.startingMigrations)
        = (st.logEntry LogEntry.startingMigrations, Except.ok m') := hrep
    refine ⟨⟨m', hrepD⟩, ?_⟩
    by_cases hd : st.diff = []
    · rw [hd]
      unfold RouterState.run
      rw [hdiff1, hd]
      exact ⟨rfl, by simp [takeUntilTarget, RouterState.logEntry]⟩
    · have hne : ¬ (st.logEntry LogEntry.startingMigrations).diff.isEmpty = true := by
        rw [hdiff1]
        simpa [List.isEmpty_iff] using hd
      rcases runList_spec target st.diff (st.logEntry LogEntry.startingMigrations) m' []
          (fun n hn => hpend n hn) with ⟨h1, h2, _, _⟩
      unfold RouterState.run
      rw [if_neg hne, hrepD]
      dsimp only
      rw [hdiff1]
      exact ⟨by rw [h1]; simp, by rw [h2]; rfl⟩

/-- Witness for C2 at a concrete state with one applied and one pending
migration. -/
theorem run_replays_then_applies_witness :
    (∃ m', replayDone (stw.logEntry LogEntry.startingMigrations)
        = (stw.logEntry LogEntry.startingMigrations, Except.ok m'))
  ∧ (stw.run none false).2 = Except.ok (takeUntilTarget none stw.diff)
  ∧ (stw.run none false).1.db.ledger = stw.db.ledger ++ takeUntilTarget none stw.diff :=
  (run_replays_then_applies stw none).2
    (by
      intro n hn
      have : n = "001_a" := by simpa [RouterState.done, stw] using hn
      subst this
      exact ⟨by decide, ⟨rfl, fun m fake => rfl⟩, ⟨rfl, fun m fake => rfl⟩⟩)
    (by
      intro n hn
      have : n = "002_b" := by
        have hd : stw.diff = ["002_b"] := by decide
        rw [hd] at hn
        simpa using hn
      subst this
      exact ⟨by decide, ⟨rfl, fun m fake => rfl⟩, ⟨rfl, fun m fake => rfl⟩⟩)

/-- Compiling against an empty source registry produces exactly one
create-table operation per current table, and nothing when there are no
tables. -/
theorem compile_from_empty (ts : List Table) :
    compile_migrations (Migrator.mk [] []) ts false
      = if ts.isEmpty then none else some (diff_many ts []) := by
  cases ts with
  | nil => rfl
  | cons t rest => rfl

/-- Fake-running the merged script with force inserts exactly its ledger
row. -/
theorem mergedState_run (st2 : RouterState) (newName : String) (migCode rbCode : List Op) :
    (mergedState st2 newName migCode rbCode).run_one newName (Migrator.mk [] []) true false true
      = (RouterState.mk (st2.files ++ [newName ++ ".py"])
          (fun n => if n == newName then templateScript migCode rbCode else st2.scripts n)
          (DBState.mk (st2.db.ledger ++ [newName]) st2.db.schema)
          (st2.log ++ [LogEntry.doneLog newName]),
         Except.ok (Migrator.mk [] [])) := by
  have hf : (newName ++ ".py") ∈ (mergedState st2 newName migCode rbCode).files :=
    List.mem_append_right _ (List.mem_singleton_self _)
  have hs : (mergedState st2 newName migCode rbCode).scripts newName
      = templateScript migCode rbCode := by
    show (if newName == newName then _ else _) = _
    rw [if_pos (beq_self_eq_true newName)]
  have hc : callProc (readProcs ((mergedState st2 newName migCode rbCode).scripts newName)).1
      (Migrator.mk [] []) true
      = Except.ok (CallResult.mk (Migrator.mk [] migCode) [] true) := by
    rw [hs]
    rfl
  have hrun := run_one_fake_ok_force (mergedState st2 newName migCode rbCode) newName
    (Migrator.mk [] []) (CallResult.mk (Migrator.mk [] migCode) [] true) hf hc
  rw [hrun]
  rfl

/-- C7: when the reconstructed registry is empty, merge only reports the
error — ledger, schema, files, scripts and log gain nothing but the error
record; otherwise it deletes every mask-matching script file, clears the
ledger, writes the single merged migration numbered 001, and leaves exactly
its one ledger row, without touching the committed schema. -/
theorem merge_collapses (st : RouterState) (name : String) (mg : Migrator)
    (h : replayDone st = (st, Except.ok mg)) :
    (mg.orm = [] →
        st.merge name = (st.logEntry LogEntry.cantMergeLog, Except.ok false))
  ∧ (mg.orm ≠ [] →
        (st.merge name).2 = Except.ok true
      ∧ (st.merge name).1.db.ledger = ["001_" ++ name]
      ∧ (st.merge name).1.files
          = st.files.filter (fun f => !(filemask f)) ++ ["001_" ++ name ++ ".py"]
      ∧ (st.merge name).1.db.schema = st.db.schema) := by
  constructor
  · intro ho
    unfold RouterState.merge
    rw [h]
    dsimp only
    rw [compile_from_empty, ho]
    rfl
  · intro ho
    unfold RouterState.merge
    rw [h]
    dsimp only
    rw [compile_from_empty]
    rw [if_neg (by simpa [List.isEmpty_iff] using ho)]
    dsimp only
    rw [mergedState_run st.clear ("001_" ++ name) (diff_many mg.orm [])
      ((compile_migrations mg [] false).getD [])]
    exact ⟨rfl, rfl, rfl, rfl⟩

/-- Witness for C7 at the concrete state. -/
theorem merge_collapses_witness :
    (stMerge.merge "initial").2 = Except.ok true
  ∧ (stMerge.merge "initial").1.db.ledger = ["001_" ++ "initial"]
  ∧ (stMerge.merge "initial").1.files
      = stMerge.files.filter (fun f => !(filemask f)) ++ ["001_" ++ "initial" ++ ".py"]
  ∧ (stMerge.merge "initial").1.db.schema = stMerge.db.schema :=
  (merge_collapses stMerge "initial" (Migrator.mk [tblA] []) rfl).2 (by decide)

/-- Pairwise from a symmetric membership bound. -/
theorem pairwise_of_mem {α : Type} {R : α → α → Prop} :
    ∀ {l : List α}, (∀ a ∈ l, ∀ b ∈ l, R a b) → l.Pairwise R
  | [], _ => List.Pairwise.nil
  | a :: t, h => List.Pairwise.cons
      (fun b hb => h a (List.mem_cons_self a t) b (List.mem_cons_of_mem a hb))
      (pairwise_of_mem (fun x hx y hy => h x (List.mem_cons_of_mem a hx) y (List.mem_cons_of_mem a hy)))

/-- Every element of a block built by mapping a constructor of one kind has
that kind's phase. -/
theorem block_phase_mem {α : Type} {l : List α} {g : α → Op} {k : Nat}
    (hg : ∀ x, phase (g x).kind = k) : ∀ a ∈ l.map g, phase a.kind = k := by
  intro a ha
  rcases List.mem_map.1 ha with ⟨c, _, rfl⟩
  exact hg c

/-- Prepending one phase-homogeneous block to an already ordered suffix with
phases at least that block's phase keeps the output ordered. -/
theorem pairwise_opLe_chain {k : Nat} {l₁ l₂ : List Op}
    (h1 : ∀ a ∈ l₁, phase a.kind = k)
    (h2 : l₂.Pairwise opLe) (hlb : ∀ a ∈ l₂, k ≤ phase a.kind) :
    (l₁ ++ l₂).Pairwise opLe ∧ ∀ a ∈ l₁ ++ l₂, k ≤ phase a.kind := by
  refine ⟨List.pairwise_append.mpr ⟨?_, h2, ?_⟩, ?_⟩
  · exact pairwise_of_mem (fun a ha b hb => by
      show phase a.kind ≤ phase b.kind
      rw [h1 a ha, h1 b hb])
  · intro a ha b hb
    show phase a.kind ≤ phase b.kind
    rw [h1 a ha]
    exact hlb b hb
  · intro a ha
    rcases List.mem_append.1 ha with h | h
    · rw [h1 a h]
    · exact hlb a h

/-- The eight block families of the per-table diff are emitted in
nondecreasing phase order. -/
theorem diff_blocks_pairwise (tn : String) (adds drops : List Column)
    (typeChs dropNN addNN defCh dropIdx addIdx : List (Column × Column)) :
    (adds.map (fun c => Op.mk OpKind.addColumn tn c.name false)
      ++ drops.map (fun c => Op.mk OpKind.dropColumn tn c.name false)
      ++ typeChs.map (fun p => Op.mk OpKind.changeType tn p.2.name false)
      ++ dropNN.map (fun p => Op.mk OpKind.dropNotNull tn p.2.name false)
      ++ addNN.map (fun p => Op.mk OpKind.addNotNull tn p.2.name false)
      ++ defCh.map (fun p => Op.mk OpKind.changeDefault tn p.2.name false)
      ++ dropIdx.map (fun p => Op.mk OpKind.dropIndex tn p.2.name false)
      ++ addIdx.map (fun p => Op.mk OpKind.addIndex tn p.2.name p.2.unique)).Pairwise opLe := by
  simp only [List.append_assoc]
  have hb0 : ∀ a ∈ adds.map (fun c => Op.mk OpKind.addColumn tn c.name false),
      phase a.kind = 0 := block_phase_mem (fun _ => rfl)
  have hb1 : ∀ a ∈ drops.map (fun c => Op.mk OpKind.dropColumn tn c.name false),
      phase a.kind = 1 := block_phase_mem (fun _ => rfl)
  have hb2 : ∀ a ∈ typeChs.map (fun p => Op.mk OpKind.changeType tn p.2.name false),
      phase a.kind = 2 := block_phase_mem (fun _ => rfl)
  have hb3 : ∀ a ∈ dropNN.map (fun p => Op.mk OpKind.dropNotNull tn p.2.name false),
      phase a.kind = 3 := block_phase_mem (fun _ => rfl)
  have hb4 : ∀ a ∈ addNN.map (fun p => Op.mk OpKind.addNotNull tn p.2.name false),
      phase a.kind = 4 := block_phase_mem (fun _ => rfl)
  have hb5 : ∀ a ∈ defCh.map (fun p => Op.mk OpKind.changeDefault tn p.2.name false),
      phase a.kind = 5 := block_phase_mem (fun _ => rfl)
  have hb6 : ∀ a ∈ dropIdx.map (fun p => Op.mk OpKind.dropIndex tn p.2.name false),
      phase a.kind = 6 := block_phase_mem (fun _ => rfl)
  have hb7 : ∀ a ∈ addIdx.map (fun p => Op.mk OpKind.addIndex tn p.2.name p.2.unique),
      phase a.kind = 7 := block_phase_mem (fun _ => rfl)
  have s7P : (addIdx.map (fun p => Op.mk OpKind.addIndex tn p.2.name p.2.unique)).Pairwise opLe :=
    pairwise_of_mem (fun a ha b hb => by
      show phase a.kind ≤ phase b.kind
      rw [hb7 a ha, hb7 b hb])
  have s7L : ∀ a ∈ addIdx.map (fun p => Op.mk OpKind.addIndex tn p.2.name p.2.unique),
      7 ≤ phase a.kind := fun a ha => Nat.le_of_eq (hb7 a ha).symm
  have s6 := pairwise_opLe_chain hb6 s7P (fun a ha => Nat.le_trans (by norm_num) (s7L a ha))
  have s5 := pairwise_opLe_chain hb5 s6.1 (fun a ha => Nat.le_trans (by norm_num) (s6.2 a ha))
  have s4 := pairwise_opLe_chain hb4 s5.1 (fun a ha => Nat.le_trans (by norm_num) (s5.2 a ha))
  have s3 := pairwise_opLe_chain hb3 s4.1 (fun a ha => Nat.le_trans (by norm_num) (s4.2 a ha))
  have s2 := pairwise_opLe_chain hb2 s3.1 (fun a ha => Nat.le_trans (by norm_num) (s3.2 a ha))
  have s1 := pairwise_opLe_chain hb1 s2.1 (fun a ha => Nat.le_trans (by norm_num) (s2.2 a ha))
  have s0 := pairwise_opLe_chain hb0 s1.1 (fun a ha => Nat.le_trans (by norm_num) (s1.2 a ha))
  exact s0.1

/-- The per-table diff is always emitted in nondecreasing phase order. -/
theorem diff_one_pairwise (newT oldT : Table) : (diff_one newT oldT).Pairwise opLe := by
  unfold diff_one
  exact diff_blocks_pairwise newT.name _ _ _ _ _ _ _ _

/-- Lookup of a column by its own name in a duplicate-free column list finds
that column. -/
theorem find?_name_self : ∀ {l : List Column}, (l.map Column.name).Nodup →
    ∀ {c : Column}, c ∈ l → l.find? (fun x => x.name == c.name) = some c := by
  intro l
  induction l with
  | nil => intro _ c hc; cases hc
  | cons a t ih =>
    intro hnd c hc
    rw [List.map_cons, List.nodup_cons] at hnd
    rcases List.mem_cons.1 hc with rfl | hc
    · rw [List.find?_cons_of_pos _ (by simp)]
    · have hne : a.name ≠ c.name :=
        fun hEq => hnd.1 (hEq ▸ List.mem_map_of_mem Column.name hc)
      rw [List.find?_cons_of_neg _ (by simpa using hne)]
      exact ih hnd.2 hc

/-- With duplicate-free column names, diffing a table against itself emits
nothing: only the operation families relevant to an actual difference
appear. -/
theorem diff_one_refl (t : Table) (hnd : (t.columns.map Column.name).Nodup) :
    diff_one t t = [] := by
  have hcol : ∀ c ∈ t.columns, t.col? c.name = some c :=
    fun c hc => find?_name_self hnd hc
  have hadds : t.columns.filter (fun c => (t.col? c.name).isNone) = [] :=
    List.filter_eq_nil_iff.mpr (fun c hc => by rw [hcol c hc]; simp)
  have hpair : ∀ p ∈ t.columns.filterMap (fun c => (t.col? c.name).map (fun o => (o, c))),
      p.1 = p.2 := by
    intro p hp
    rcases List.mem_filterMap.1 hp with ⟨c, hc, hsome⟩
    rw [hcol c hc] at hsome
    cases hsome
    rfl
  have htype : (t.columns.filterMap (fun c => (t.col? c.name).map (fun o => (o, c)))).filter
      (fun p => (!(p.1.ctype == p.2.ctype)) || (!(p.1.maxLength == p.2.maxLength))) = [] :=
    List.filter_eq_nil_iff.mpr (fun p hp => by rw [hpair p hp]; simp)
  have hdnn : (t.columns.filterMap (fun c => (t.col? c.name).map (fun o => (o, c)))).filter
      (fun p => (!p.1.null) && p.2.null) = [] :=
    List.filter_eq_nil_iff.mpr (fun p hp => by rw [hpair p hp]; simp)
  have hann : (t.columns.filterMap (fun c => (t.col? c.name).map (fun o => (o, c)))).filter
      (fun p => p.1.null && (!p.2.null)) = [] :=
    List.filter_eq_nil_iff.mpr (fun p hp => by rw [hpair p hp]; simp)
  have hdef : (t.columns.filterMap (fun c => (t.col? c.name).map (fun o => (o, c)))).filter
      (fun p => !(p.1.dflt == p.2.dflt)) = [] :=
    List.filter_eq_nil_iff.mpr (fun p hp => by rw [hpair p hp]; simp)
  have hidx : (t.columns.filterMap (fun c => (t.col? c.name).map (fun o => (o, c)))).filter
      (fun p => (!(p.1.index == p.2.index)) || (!(p.1.unique == p.2.unique))) = [] :=
    List.filter_eq_nil_iff.mpr (fun p hp => by rw [hpair p hp]; simp)
  unfold diff_one
  dsimp only
  rw [hadds, hdnn, hann, hdef, hidx, htype]
  simp

/-- C6 (amended): for every pair of table snapshots, `diff_one` emits the
operations in the fixed phase order add-column, drop-column, type changes,
drop-not-null, add-not-null, default changes, drop-index, add-index — in
particular drop-not-null precedes drop-index and the index operations come
last — and a table with duplicate-free column names diffed against itself
yields no operations at all. -/
theorem diff_one_emission_order :
    (∀ newT oldT : Table, (diff_one newT oldT).Pairwise opLe)
  ∧ (∀ t : Table, (t.columns.map Column.name).Nodup → diff_one t t = []) :=
  ⟨diff_one_pairwise, diff_one_refl⟩

/-- C6 counterexample: on the schema change exercised by the repository test
(test_auto.py lines 39-45, which asserts drop-not-null at position -3,
drop-index at -2 and add-index last), the emitted sequence violates the
specified fixed order, which demands drop-index before drop-not-null before
the type changes. -/
theorem diff_one_claimed_order_cex :
    diff_one personNew personOld =
      [ Op.mk OpKind.addColumn "person" "tag" false,
        Op.mk OpKind.changeType "person" "first_name" false,
        Op.mk OpKind.changeType "person" "last_name" false,
        Op.mk OpKind.dropNotNull "person" "last_name" false,
        Op.mk OpKind.dropIndex "person" "last_name" false,
        Op.mk OpKind.addIndex "person" "last_name" true ]
  ∧ ¬ claimOrder (diff_one personNew personOld) :=
  ⟨by decide, by unfold claimOrder; decide⟩

/-- Witness for C6 at the test scenario's snapshots. -/
theorem diff_one_emission_order_witness :
    (diff_one personNew personOld).Pairwise opLe
  ∧ diff_one personOld personOld = [] :=
  ⟨diff_one_emission_order.1 personNew personOld,
   diff_one_emission_order.2 personOld (by decide)⟩
